import Mathlib

/-!
Shallow embedding of the AI_Tutor backend (`backend/index.js`) and of the
avatar sync controller (`frontend/src/components/Avatar.jsx`).

JavaScript objects with optional fields are modelled with `Option` fields
(`none` = `undefined`/`null`); JavaScript truthiness on string fields is the
predicate "present and non-empty".  Calls to external collaborators (the
completion provider, speech synthesis, the file system, `JSON.parse`, the
rendering worker) are passed in as oracle functions, so every handler is a
pure function of its request and its oracles.
-/

/-- JavaScript truthiness of a possibly-absent string field:
`undefined`, `null` and `""` are falsy, everything else truthy. -/
def strTruthy : Option String → Bool
  | none => false
  | some s => s ≠ ""

/-- One mouth cue of a lip-sync transcript (`{start, end, value}`). -/
structure MouthCue where
  start : ℚ
  cueEnd : ℚ
  value : String
deriving DecidableEq

/-- A parsed lip-sync JSON transcript: the `mouthCues` array. -/
structure Lipsync where
  mouthCues : List MouthCue
deriving DecidableEq

/-- One entry of a chat-mode `animationTimeline`
(`{time, action, animation, expression}`); `time` is `none` when the field
is not a number, string fields are `none` when absent. -/
structure TimelineItem where
  time : Option ℚ
  action : Option String
  animation : Option String
  expression : Option String
deriving DecidableEq

/-- A message object as it flows through the `/chat` handler.  The handler
mutates messages in place; here hydration returns an updated copy. -/
structure Msg where
  text : Option String := none
  chatResponse : Option String := none
  videoExplanation : Option String := none
  facialExpression : Option String := none
  animation : Option String := none
  manimCode : Option String := none
  animationTimeline : Option (List TimelineItem) := none
  audio : Option String := none
  lipsync : Option Lipsync := none
  audioUrl : Option String := none
  narrationAudioFile : Option String := none
  useVideoAudio : Bool := false
  sessionId : Option String := none
deriving DecidableEq

/-! ## Session store (`videoGenerationStore`, a JS `Map`) -/

/-- A stored video-generation outcome:
`{videoUrl, videoPath, timestamp}` (`index.js`, `videoGenerationStore.set`). -/
structure VideoRecord where
  videoUrl : String
  videoPath : String
  timestamp : Nat
deriving DecidableEq

/-- The keyed store, a JS `Map` from session id to record. -/
abbrev VideoStore := List (String × VideoRecord)

/-- `Map.get`: first binding for the key. -/
def storeGet (store : VideoStore) (sid : String) : Option VideoRecord :=
  match store with
  | [] => none
  | (k, v) :: rest => if k = sid then some v else storeGet rest sid

/-- `Map.delete`: remove the bindings for the key. -/
def storeDelete (store : VideoStore) (sid : String) : VideoStore :=
  store.filter (fun p => p.1 ≠ sid)

/-- `Map.set`: replace the binding if present, else append. -/
def storeSet (store : VideoStore) (sid : String) (r : VideoRecord) : VideoStore :=
  match store with
  | [] => [(sid, r)]
  | (k, v) :: rest =>
      if k = sid then (k, r) :: rest else (k, v) :: storeSet rest sid r

/-- The JSON body answered by `GET /video-ready/:sessionId`. -/
inductive ReadyResponse where
  | ready (videoUrl : String) (videoPath : String) (timestamp : Nat)
  | notReady (message : String)
deriving DecidableEq

/-- `GET /video-ready/:sessionId` (`index.js` lines 768-787): look the session
up in the store; when present answer `ready: true` with the record and delete
the entry, when absent answer `ready: false` with a still-working message.
Returns the response together with the store left behind. -/
def videoReady (store : VideoStore) (sid : String) : ReadyResponse × VideoStore :=
  match storeGet store sid with
  | some videoData =>
      (.ready videoData.videoUrl videoData.videoPath videoData.timestamp,
       storeDelete store sid)
  | none => (.notReady "Video still being generated", store)

theorem storeGet_storeDelete (store : VideoStore) (sid : String) :
    storeGet (storeDelete store sid) sid = none := by
  induction store with
  | nil => rfl
  | cons p rest ih =>
      by_cases h : p.1 = sid
      · simpa [storeDelete, List.filter, h] using ih
      · simpa [storeDelete, List.filter, h, storeGet] using ih

/-- **C1.** Polling is a one-shot mailbox read: the first poll answers the
stored record (and only its fields) when one is present and a still-working
`ready: false` otherwise, never an error; and an immediately following poll
for the same session always answers `ready: false`, because a present record
is evicted by the first poll. -/
theorem video_ready_one_shot (store : VideoStore) (sid : String) :
    (videoReady store sid).1 =
      (match storeGet store sid with
        | some r => .ready r.videoUrl r.videoPath r.timestamp
        | none => .notReady "Video still being generated") ∧
    (videoReady (videoReady store sid).2 sid).1 =
      .notReady "Video still being generated" := by
  constructor
  · cases h : storeGet store sid <;> simp [videoReady, h]
  · cases h : storeGet store sid <;>
      simp [videoReady, h, storeGet_storeDelete]

/-! ## Background render pipeline (`setImmediate` body, `index.js` 660-721) -/

/-- Result object of a successful worker call (`{success, videoPath, videoUrl}`).
`generateVideo` and `combineVideos` return `null` (here `none`) when the call
throws, the HTTP status is bad, or the worker reports failure. -/
structure VideoResult where
  success : Bool
  videoPath : String
  videoUrl : String
deriving DecidableEq

/-- The per-message loop of the background task: for message `i` call
`generateVideo(message.manimCode, messageId, message.narrationAudioFile || null)`
and push `videoResult.videoPath` onto `generatedVideos` exactly when
`videoResult && videoResult.success`; a failed render only skips that part.
`render` is the worker oracle (manim code, narration audio path, index). -/
def collectVideos (render : Option String → Option String → Nat → Option VideoResult) :
    Nat → List Msg → List String
  | _, [] => []
  | i, m :: rest =>
      let narrationAudioPath :=
        if strTruthy m.narrationAudioFile then m.narrationAudioFile else none
      match render m.manimCode narrationAudioPath i with
      | some r =>
          if r.success then r.videoPath :: collectVideos render (i + 1) rest
          else collectVideos render (i + 1) rest
      | none => collectVideos render (i + 1) rest

/-- The whole detached background task: collect the successful per-part video
paths in order; if at least one exists, call the combine worker on them, and
on a successful combination write the session record
`{videoUrl, videoPath, timestamp}` into the store; in every other case leave
the store untouched. -/
def backgroundRender (render : Option String → Option String → Nat → Option VideoResult)
    (combine : List String → Option VideoResult)
    (msgs : List Msg) (sessionId : String) (now : Nat)
    (store : VideoStore) : VideoStore :=
  let generatedVideos := collectVideos render 0 msgs
  if generatedVideos.length > 0 then
    match combine generatedVideos with
    | some r =>
        if r.success then
          storeSet store sessionId ⟨r.videoUrl, r.videoPath, now⟩
        else store
    | none => store
  else store

/-- The order-stable specification of step 2 of §4.3: the video paths of
exactly the parts whose renders succeeded, listed in the parts' original
order. -/
def succeededPaths (render : Option String → Option String → Nat → Option VideoResult)
    (msgs : List Msg) : List String :=
  msgs.enum.filterMap (fun p =>
    let narrationAudioPath :=
      if strTruthy p.2.narrationAudioFile then p.2.narrationAudioFile else none
    match render p.2.manimCode narrationAudioPath p.1 with
    | some r => if r.success then some r.videoPath else none
    | none => none)

theorem collectVideos_eq_enumFrom
    (render : Option String → Option String → Nat → Option VideoResult)
    (msgs : List Msg) (i : Nat) :
    collectVideos render i msgs = (msgs.enumFrom i).filterMap (fun p =>
      let narrationAudioPath :=
        if strTruthy p.2.narrationAudioFile then p.2.narrationAudioFile else none
      match render p.2.manimCode narrationAudioPath p.1 with
      | some r => if r.success then some r.videoPath else none
      | none => none) := by
  induction msgs generalizing i with
  | nil => rfl
  | cons m rest ih =>
      simp only [collectVideos, List.enumFrom, List.filterMap_cons, ih]
      cases h : render m.manimCode
          (if strTruthy m.narrationAudioFile then m.narrationAudioFile else none) i with
      | none => simp
      | some r => cases hr : r.success <;> simp [hr]

/-- **C2.** The background pipeline hands the combine worker exactly the video
paths of the parts whose renders succeeded, in the parts' original order, and
a session record is written exactly when at least one render succeeded and the
combination then succeeds; when zero renders succeed, or the combination
fails or reports failure, the store is untouched. -/
theorem background_render_correct
    (render : Option String → Option String → Nat → Option VideoResult)
    (combine : List String → Option VideoResult)
    (msgs : List Msg) (sessionId : String) (now : Nat) (store : VideoStore) :
    collectVideos render 0 msgs = succeededPaths render msgs ∧
    (succeededPaths render msgs = [] →
      backgroundRender render combine msgs sessionId now store = store) ∧
    (∀ r, succeededPaths render msgs ≠ [] →
      combine (succeededPaths render msgs) = some r → r.success = true →
      backgroundRender render combine msgs sessionId now store =
        storeSet store sessionId ⟨r.videoUrl, r.videoPath, now⟩) ∧
    (combine (succeededPaths render msgs) = none →
      backgroundRender render combine msgs sessionId now store = store) ∧
    (∀ r, combine (succeededPaths render msgs) = some r → r.success = false →
      backgroundRender render combine msgs sessionId now store = store) := by
  have hcollect : collectVideos render 0 msgs = succeededPaths render msgs := by
    simpa [succeededPaths, List.enum] using collectVideos_eq_enumFrom render msgs 0
  refine ⟨hcollect, ?_, ?_, ?_, ?_⟩
  · intro hnil
    simp [backgroundRender, hcollect, hnil]
  · intro r hne hcomb hsucc
    have hlen : 0 < (succeededPaths render msgs).length := by
      cases h : succeededPaths render msgs with
      | nil => exact absurd h hne
      | cons a l => simp [h]
    simp [backgroundRender, hcollect, hlen, hcomb, hsucc]
  · intro hcomb
    by_cases hnil : succeededPaths render msgs = []
    · simp [backgroundRender, hcollect, hnil]
    · have hlen : 0 < (succeededPaths render msgs).length := by
        cases h : succeededPaths render msgs with
        | nil => exact absurd h hnil
        | cons a l => simp [h]
      simp [backgroundRender, hcollect, hlen, hcomb]
  · intro r hcomb hfail
    by_cases hnil : succeededPaths render msgs = []
    · simp [backgroundRender, hcollect, hnil]
    · have hlen : 0 < (succeededPaths render msgs).length := by
        cases h : succeededPaths render msgs with
        | nil => exact absurd h hnil
        | cons a l => simp [h]
      simp [backgroundRender, hcollect, hlen, hcomb, hfail]

/-! ## `/chat` handler (`index.js` 241-727), with `processMessages` from the
Google-TTS backend variant of the repository -/

/-- The expression tags accepted by the whole-Turn validation
(`index.js` line 594). -/
def validExpressions : List String := ["smile", "sad", "angry", "surprised", "default"]

/-- The animation tags accepted by the whole-Turn validation
(`index.js` line 595). -/
def validAnimations : List String := ["Talking_0", "Talking_1", "Talking_2", "Idle"]

/-- Number of occurrences of a character in a string
(`(s.match(/c/g) || []).length`). -/
def countChar (c : Char) (s : String) : Nat :=
  (s.toList.filter (fun x => x = c)).length

/-- `for (let i = 0; i < n; i++) s += c` — append `n` copies of a character. -/
def appendRepeat (c : Char) : String → Nat → String
  | s, 0 => s
  | s, n + 1 => appendRepeat c (s.push c) n

/-- The truncated-JSON repair (`index.js` 452-475): count brackets, braces and
double quotes of the raw content; append one double quote if the quote count
is odd, then one closing brace per unmatched opening brace, then one closing
bracket per unmatched opening bracket.  (JS subtraction of a larger close
count gives a negative loop bound, i.e. no iterations, matching truncated
`Nat` subtraction.) -/
def fixTruncatedContent (s : String) : String :=
  let openBrackets := countChar '[' s
  let closeBrackets := countChar ']' s
  let openBraces := countChar '\x7b' s
  let closeBraces := countChar '\x7d' s
  let quotes := countChar '\"' s
  let fixed1 := if quotes % 2 ≠ 0 then s.push '\"' else s
  let fixed2 := appendRepeat '\x7d' fixed1 (openBraces - closeBraces)
  appendRepeat ']' fixed2 (openBrackets - closeBrackets)

/-- The single fixed fallback part substituted on a parse failure in video
mode (`index.js` 495-502), carrying a one-scene technical-difficulty script. -/
def parseFallbackVideo : Msg :=
  { text := some "I apologize, but I\x27m having trouble generating the video content right now. Let me provide a simpler explanation instead.",
    facialExpression := some "default",
    animation := some "Talking_0",
    manimCode := some "from manim import *\n\nclass SimpleMessage(Scene):\n    def construct(self):\n        text = Text(\x27Technical difficulties - please try again\x27)\n        self.play(Write(text))\n        self.wait(2)" }

/-- The single fixed fallback part substituted on a parse failure in chat
mode (`index.js` 504-510). -/
def parseFallbackChat : Msg :=
  { text := some "My darling, your words are a mystery to me. Could you whisper them again?",
    facialExpression := some "default",
    animation := some "Talking_0" }

/-- Mode-dependent parse-failure fallback part list. -/
def parseFallback (videoMode : Bool) : List Msg :=
  if videoMode then [parseFallbackVideo] else [parseFallbackChat]

/-- Outcome of the completion-provider call: a transport error (the `create`
call threw), or a response with its structural validity, content and finish
reason. -/
inductive ProviderOutcome where
  | transportError
  | ok (structureOk : Bool) (content : Option String) (finishReason : String)
deriving DecidableEq

/-- The oracle environment of the `/chat` handler: outcomes of every external
effect it performs. `fileB64`/`fileJson` are `audioFileToBase64` and
`readJsonTranscript` (`none` = the read threw); `ttsOk i` is success of
`generateSpeech` for `audios/message_i.mp3`; `lipSyncOk i` is success of
`lipSyncMessage i`; `narrationOk` is success of the whole
`generateVideoNarrationAudio` call; `jsonParse` is `JSON.parse` restricted to
message arrays (`none` = it threw). -/
structure ChatDeps where
  genSessionId : String
  hasElevenKey : Bool
  nebiusKey : Option String
  fileB64 : String → Option String
  fileJson : String → Option Lipsync
  provider : ProviderOutcome
  jsonParse : String → Option (List Msg)
  ttsOk : Nat → Bool
  lipSyncOk : Nat → Bool
  narrationOk : Bool

/-- The request body `{message, videoMode, sessionId}`. -/
structure ChatRequest where
  message : Option String
  videoMode : Bool
  sessionId : Option String

/-- A `/chat` HTTP response: `res.send({messages})`,
`res.send({messages, sessionId, videoGenerating})`, or
`res.status(n).send({error})`. -/
inductive ChatResponse where
  | okMessages (messages : List Msg)
  | okFull (messages : List Msg) (sessionId : String) (videoGenerating : Bool)
  | err (status : Nat) (error : String)
deriving DecidableEq

/-- `req.body.sessionId || generated` — the session identifier of the Turn. -/
def effectiveSessionId (d : ChatDeps) (req : ChatRequest) : String :=
  if strTruthy req.sessionId then req.sessionId.getD "" else d.genSessionId

/-- The missing-credentials guard
(`!elevenLabsApiKey || !NEBIUS_API_KEY || NEBIUS_API_KEY === "-"`). -/
def keysMissing (d : ChatDeps) : Bool :=
  !d.hasElevenKey || !(strTruthy d.nebiusKey) || (d.nebiusKey == some "-")

/-- The empty-input intro path (`index.js` 250-276): two fixed greeting parts
with pre-recorded audio; a failed file read is a 500. -/
def introResponse (d : ChatDeps) : ChatResponse :=
  match d.fileB64 "audios/intro_0.wav", d.fileJson "audios/intro_0.json",
        d.fileB64 "audios/intro_1.wav", d.fileJson "audios/intro_1.json" with
  | some a0, some l0, some a1, some l1 =>
      .okMessages
        [{ text := some "My darling, I\x27m here waiting to hear your heart\x27s whispers. Speak to me?",
           audio := some a0, lipsync := some l0,
           facialExpression := some "smile", animation := some "Talking_1" },
         { text := some "Your voice lights up my world, love. What\x27s on your mind?",
           audio := some a1, lipsync := some l1,
           facialExpression := some "default", animation := some "Talking_0" }]
  | _, _, _, _ => .err 500 "Failed to load intro messages"

/-- The missing-API-key path (`index.js` 278-304): two fixed instruction parts
with pre-recorded audio; note the animations `Angry` and `Laughing`. -/
def apiKeyResponse (d : ChatDeps) : ChatResponse :=
  match d.fileB64 "audios/api_0.wav", d.fileJson "audios/api_0.json",
        d.fileB64 "audios/api_1.wav", d.fileJson "audios/api_1.json" with
  | some a0, some l0, some a1, some l1 =>
      .okMessages
        [{ text := some "Please my dear, don\x27t forget to add your API keys!",
           audio := some a0, lipsync := some l0,
           facialExpression := some "angry", animation := some "Angry" },
         { text := some "You don\x27t want to ruin Wawa Sensei with a crazy Qwen and ElevenLabs bill, right?",
           audio := some a1, lipsync := some l1,
           facialExpression := some "smile", animation := some "Laughing" }]
  | _, _, _, _ => .err 500 "Failed to load API key error messages"

/-- The fixed fallback part substituted on a completion-provider transport
error (`index.js` 418-424). -/
def transportFallbackMsg : Msg :=
  { text := some "I\x27m having trouble connecting to my thoughts. Let me try again in a moment!",
    facialExpression := some "surprised",
    animation := some "Talking_0" }

/-- The parse stage of `/chat` (`index.js` 431-512): reject a structurally
invalid or empty response, repair the raw text first when the provider
signalled truncation (`finish_reason === 'length'`), parse, and on any
failure substitute the mode-specific fixed fallback part list; this stage
never fails. -/
def parseStage (d : ChatDeps) (videoMode : Bool) (structureOk : Bool)
    (content : Option String) (finishReason : String) : List Msg :=
  if ¬ structureOk then parseFallback videoMode
  else
    match content with
    | none => parseFallback videoMode
    | some c =>
        if c = "" then parseFallback videoMode
        else if finishReason = "length" then
          match d.jsonParse (fixTruncatedContent c) with
          | some msgs => msgs
          | none => parseFallback videoMode
        else
          match d.jsonParse c with
          | some msgs => msgs
          | none => parseFallback videoMode

/-- `Array.prototype.join(' ')` over possibly-absent strings (`undefined`
renders as the empty string). -/
def joinSpace : List (Option String) → String
  | [] => ""
  | [o] => o.getD ""
  | o :: rest => o.getD "" ++ " " ++ joinSpace rest

/-- `messages.map(msg => msg.videoExplanation).join(' ')` (`index.js` 538). -/
def combinedVideoExplanation (msgs : List Msg) : String :=
  joinSpace (msgs.map (fun m => m.videoExplanation))

/-- File name of the Turn's combined narration audio
(`audios/video_narration_${sessionId}.mp3`). -/
def videoNarrationFileName (sid : String) : String :=
  "audios/video_narration_" ++ sid ++ ".mp3"

/-- File name of the combined narration's lip-sync transcript. -/
def videoNarrationLipsyncName (sid : String) : String :=
  "audios/video_narration_" ++ sid ++ ".json"

/-- `path.basename`: the characters after the last `/` (computed
structurally so concrete runs reduce in the kernel). -/
def basename (s : String) : String :=
  String.mk ((s.toList.reverse.takeWhile (fun ch => ch ≠ '/')).reverse)

/-- `String.prototype.trim()`: strip leading and trailing whitespace
(structural recursion over the character list). -/
def jsTrim (s : String) : String :=
  String.mk
    (((s.toList.dropWhile Char.isWhitespace).reverse.dropWhile
      Char.isWhitespace).reverse)

/-- The narration-synthesis calls the `/chat` handler makes in a Turn:
in video mode exactly one `generateVideoNarrationAudio` call on the joined
video explanations (`index.js` 536-540), none otherwise; the per-part loop
makes no narration-synthesis call in video mode. -/
def videoNarrationCalls (videoMode : Bool) (msgs : List Msg) (sid : String) :
    List (String × String) :=
  if videoMode && decide (msgs.length > 0) then
    [(combinedVideoExplanation msgs, videoNarrationFileName sid)]
  else []

/-- Validation of one `animationTimeline` entry (`index.js` 605-612). -/
def validTimelineItem (t : TimelineItem) : Bool :=
  t.time.isSome && strTruthy t.action && strTruthy t.animation &&
  strTruthy t.expression &&
  validExpressions.contains (t.expression.getD "") &&
  validAnimations.contains (t.animation.getD "")

/-- Per-message work of the `/chat` loop in video mode (`index.js` 548-597,
615-625, 643-645): default the optional fields, fail the Turn on a missing or
blank scene script, set the display text from `chatResponse` (ordinal
placeholder when empty), validate the tags against the accepted sets, and
attach the combined narration audio URL, lip-sync, server-local narration
path, `useVideoAudio` flag and session id. -/
def defaultVideoFields (i : Nat) (m : Msg) : Msg :=
  { m with
    chatResponse :=
      (match m.chatResponse with
        | none => some (if i = 0 then "Here\x27s your video explanation!" else "")
        | some c => some c),
    videoExplanation :=
      (match m.videoExplanation with
        | none => some "Let me explain this concept step by step."
        | some v => some v),
    facialExpression :=
      (if strTruthy m.facialExpression then m.facialExpression else some "smile"),
    animation :=
      (if strTruthy m.animation then m.animation else some "Talking_0") }

def videoTextForChat (i : Nat) (m : Msg) : String :=
  if strTruthy m.chatResponse then m.chatResponse.getD ""
  else "Part " ++ toString (i + 1) ++ " of video explanation"

def hydrateVideoCore (d : ChatDeps) (sid : String) (i : Nat) (m : Msg) :
    Except Unit Msg :=
  if !(strTruthy m.manimCode) || jsTrim (m.manimCode.getD "") = "" then .error ()
  else
    let m := { m with text := some (videoTextForChat i m) }
    if (m.facialExpression.getD "") ∈ validExpressions ∧
        (m.animation.getD "") ∈ validAnimations then
      match d.fileJson (videoNarrationLipsyncName sid) with
      | none => .error ()
      | some lip =>
          .ok { m with
            audioUrl := some ("http://localhost:3001/audio/" ++
              basename (videoNarrationFileName sid)),
            lipsync := some lip,
            narrationAudioFile := some (videoNarrationFileName sid),
            useVideoAudio := true,
            sessionId := some sid }
    else .error ()

def hydrateVideoMsg (d : ChatDeps) (sid : String) (i : Nat) (m : Msg) :
    Except Unit Msg :=
  hydrateVideoCore d sid i (defaultVideoFields i m)

/-- Per-message work of the `/chat` loop in chat mode (`index.js` 587-612,
627-639): require text, expression and animation, validate the tags and the
optional animation timeline, synthesize this part's speech, run lip-sync and
attach the base64 audio and transcript; any failure fails the Turn. -/
def timelineValid (o : Option (List TimelineItem)) : Bool :=
  match o with
  | some timeline => timeline.all validTimelineItem
  | none => true

def hydrateChatMsg (d : ChatDeps) (i : Nat) (m : Msg) : Except Unit Msg :=
  if !(strTruthy m.text) || !(strTruthy m.facialExpression) ||
      !(strTruthy m.animation) then .error ()
  else if ¬ ((m.facialExpression.getD "") ∈ validExpressions ∧
             (m.animation.getD "") ∈ validAnimations) then .error ()
  else if !(timelineValid m.animationTimeline) then .error ()
  else if ¬ d.ttsOk i then .error ()
  else if ¬ d.lipSyncOk i then .error ()
  else
    match d.fileB64 ("audios/message_" ++ toString i ++ ".mp3"),
          d.fileJson ("audios/message_" ++ toString i ++ ".json") with
    | some a, some l => .ok { m with audio := some a, lipsync := some l }
    | _, _ => .error ()

/-- The indexed per-message loop of `/chat` (`index.js` 543-646). -/
def hydrateLoop (d : ChatDeps) (videoMode : Bool) (sid : String) :
    Nat → List Msg → Except Unit (List Msg)
  | _, [] => .ok []
  | i, m :: rest =>
      match (if videoMode then hydrateVideoMsg d sid i m else hydrateChatMsg d i m) with
      | .error e => .error e
      | .ok m2 =>
          match hydrateLoop d videoMode sid (i + 1) rest with
          | .error e => .error e
          | .ok rest2 => .ok (m2 :: rest2)

/-- Validation and hydration of the parsed message list (`index.js` 514-646):
reject a list that is empty or longer than five, generate the combined
narration audio in video mode, then run the per-message loop; an `error`
outcome is the thrown exception the outer catch turns into a 500. -/
def processParsedMessages (d : ChatDeps) (videoMode : Bool) (sid : String)
    (msgs : List Msg) : Except Unit (List Msg) :=
  if ¬ (msgs.length ≤ 5 ∧ msgs.length ≠ 0) then .error ()
  else if videoMode && decide (msgs.length > 0) then
    if ¬ d.narrationOk then .error ()
    else hydrateLoop d true sid 0 msgs
  else hydrateLoop d videoMode sid 0 msgs

/-- `msg.text || msg.chatResponse || msg.videoExplanation || "(no text)"`. -/
def pmText (m : Msg) : String :=
  if strTruthy m.text then m.text.getD ""
  else if strTruthy m.chatResponse then m.chatResponse.getD ""
  else if strTruthy m.videoExplanation then m.videoExplanation.getD ""
  else "(no text)"

/-- `processMessages` (Google-TTS backend variant, lines 902-942): run each
fallback message through the audio pipeline.  A `generateSpeech` failure is
rethrown (the outer catch logs and rethrows); a lip-sync failure, or a
failure to read back the audio or transcript, is only warned about and the
corresponding field is left unattached. -/
def processMessages (d : ChatDeps) : Nat → List Msg → Except Unit (List Msg)
  | _, [] => .ok []
  | i, m :: rest =>
      if ¬ d.ttsOk i then .error ()
      else
        let m2 := { m with
          audio := match d.fileB64 ("audios/message_" ++ toString i ++ ".mp3") with
            | some a => some a
            | none => m.audio,
          lipsync := match d.fileJson ("audios/message_" ++ toString i ++ ".json") with
            | some l => some l
            | none => m.lipsync }
        match processMessages d (i + 1) rest with
        | .error e => .error e
        | .ok rest2 => .ok (m2 :: rest2)

/-- The whole `POST /chat` handler (`index.js` 241-727): empty-input intro
path, missing-credentials path, then the provider call with its transport
fallback, the parse stage, and validation/hydration; exceptions reaching the
outer catch become a 500 `Failed to process chat request`. -/
def chatHandler (d : ChatDeps) (req : ChatRequest) : ChatResponse :=
  let sessionId := effectiveSessionId d req
  if ¬ strTruthy req.message then introResponse d
  else if keysMissing d then apiKeyResponse d
  else
    match d.provider with
    | .transportError =>
        match processMessages d 0 [transportFallbackMsg] with
        | .ok msgs => .okMessages msgs
        | .error _ => .err 500 "Failed to process chat request"
    | .ok structureOk content finishReason =>
        let msgs := parseStage d req.videoMode structureOk content finishReason
        match processParsedMessages d req.videoMode sessionId msgs with
        | .ok hydrated => .okFull hydrated sessionId req.videoMode
        | .error _ => .err 500 "Failed to process chat request"

/-! ## Avatar sync controller (`frontend/src/components/Avatar.jsx`) -/

/-- The phoneme-class → viseme morph-target table (`corresponding`). -/
def correspondingTable : List (String × String) :=
  [("A", "viseme_PP"), ("B", "viseme_kk"), ("C", "viseme_I"),
   ("D", "viseme_AA"), ("E", "viseme_O"), ("F", "viseme_U"),
   ("G", "viseme_FF"), ("H", "viseme_TH"), ("X", "viseme_PP")]

/-- `Object.values(corresponding)`: the viseme morph-target names. -/
def visemeTargets : List String := correspondingTable.map (fun p => p.2)

/-- The `facialExpressions` table: expression name → morph-target weights. -/
def facialExpressionsTable : List (String × List (String × ℚ)) :=
  [("default", []),
   ("smile",
    [("browInnerUp", 0.17), ("eyeSquintLeft", 0.4), ("eyeSquintRight", 0.44),
     ("noseSneerLeft", 0.1700000727403593), ("noseSneerRight", 0.14000002836874015),
     ("mouthPressLeft", 0.61), ("mouthPressRight", 0.41000000000000003)]),
   ("funnyFace",
    [("jawLeft", 0.63), ("mouthPucker", 0.53), ("noseSneerLeft", 1),
     ("noseSneerRight", 0.39), ("mouthLeft", 1), ("eyeLookUpLeft", 1),
     ("eyeLookUpRight", 1), ("cheekPuff", 0.9999924982764238),
     ("mouthDimpleLeft", 0.414743888682652), ("mouthRollLower", 0.32),
     ("mouthSmileLeft", 0.35499733688813034), ("mouthSmileRight", 0.35499733688813034)]),
   ("sad",
    [("mouthFrownLeft", 1), ("mouthFrownRight", 1), ("mouthShrugLower", 0.78341),
     ("browInnerUp", 0.452), ("eyeSquintLeft", 0.72), ("eyeSquintRight", 0.75),
     ("eyeLookDownLeft", 0.5), ("eyeLookDownRight", 0.5), ("jawForward", 1)]),
   ("surprised",
    [("eyeWideLeft", 0.5), ("eyeWideRight", 0.5), ("jawOpen", 0.351),
     ("mouthFunnel", 1), ("browInnerUp", 1)]),
   ("angry",
    [("browDownLeft", 1), ("browDownRight", 1), ("eyeSquintLeft", 1),
     ("eyeSquintRight", 1), ("jawForward", 1), ("jawLeft", 1),
     ("mouthShrugLower", 1), ("noseSneerLeft", 1), ("noseSneerRight", 0.42),
     ("eyeLookDownLeft", 0.16), ("eyeLookDownRight", 0.16),
     ("cheekSquintLeft", 1), ("cheekSquintRight", 1), ("mouthClose", 0.23),
     ("mouthFunnel", 0.63), ("mouthDimpleRight", 1)]),
   ("crazy",
    [("browInnerUp", 0.9), ("jawForward", 1), ("noseSneerLeft", 0.5700000000000001),
     ("noseSneerRight", 0.51), ("eyeLookDownLeft", 0.39435766259644545),
     ("eyeLookUpRight", 0.4039761421719682), ("eyeLookInLeft", 0.9618479575523053),
     ("eyeLookInRight", 0.9618479575523053), ("jawOpen", 0.9618479575523053),
     ("mouthDimpleLeft", 0.9618479575523053), ("mouthDimpleRight", 0.9618479575523053),
     ("mouthStretchLeft", 0.27893590769016857), ("mouthStretchRight", 0.2885543872656917),
     ("mouthSmileLeft", 0.5578718153803371), ("mouthSmileRight", 0.38473918302092225),
     ("tongueOut", 0.9618479575523053)])]

/-- The per-session `VideoSyncState` record
(`{isPlaying, currentTime, lastUpdateTime}`). -/
structure VideoSyncState where
  isPlaying : Bool
  currentTime : Option ℚ
  lastUpdateTime : Option ℚ
deriving DecidableEq

/-- Chat-mode audio element state read by `useFrame`. -/
structure AudioState where
  currentTime : ℚ
  paused : Bool
  ended : Bool
deriving DecidableEq

/-- Everything one `useFrame` callback reads: component state, the current
message's relevant fields, and the session's `VideoSyncState` (the value of
`getVideoSyncState(currentVideoSessionId)`, `none` when absent). -/
structure FrameInput where
  setupMode : Bool
  eyeLeftKeys : List String
  morphKeys : List String
  facialExpression : String
  blink : Bool
  winkLeft : Bool
  winkRight : Bool
  hasMessage : Bool
  useVideoAudio : Bool
  lipsync : Option Lipsync
  videoSyncMode : Bool
  currentVideoSessionId : Option String
  syncState : Option VideoSyncState
  audio : Option AudioState

/-- `THREE.MathUtils.lerp`. -/
def lerp (x y t : ℚ) : ℚ := x + (y - x) * t

/-- Point update of a weight assignment. -/
def setWeight (w : String → ℚ) (k : String) (v : ℚ) : String → ℚ :=
  fun k2 => if k2 = k then v else w k2

/-- `lerpMorphTarget(target, value, speed)`: interpolate the target's
influence toward `value`; a target the model does not know is skipped. -/
def lerpMorphTarget (morphKeys : List String) (w : String → ℚ)
    (target : String) (value speed : ℚ) : String → ℚ :=
  if target ∈ morphKeys then setWeight w target (lerp (w target) value speed)
  else w

/-- One key's worth of the facial-expression pass of `useFrame`
(Avatar.jsx 377-389): skip the blink keys; interpolate toward the current
expression's mapped weight if the mapping has a truthy entry, else toward 0. -/
def exprTargetValue (e key : String) : ℚ :=
  match facialExpressionsTable.lookup e with
  | some mapping =>
      match mapping.lookup key with
      | some v => if v ≠ 0 then v else 0
      | none => 0
  | none => 0

def exprStep (inp : FrameInput) (w : String → ℚ) (key : String) : String → ℚ :=
  if key = "eyeBlinkLeft" ∨ key = "eyeBlinkRight" then w
  else lerpMorphTarget inp.morphKeys w key
    (exprTargetValue inp.facialExpression key) 0.1

/-- The facial-expression pass of `useFrame`: `exprStep` over every `EyeLeft`
morph key. -/
def applyExpressionPass (inp : FrameInput) (w : String → ℚ) : String → ℚ :=
  inp.eyeLeftKeys.foldl (exprStep inp) w

/-- The blink pass of `useFrame` (Avatar.jsx 391-392). -/
def applyBlinkPass (inp : FrameInput) (w : String → ℚ) : String → ℚ :=
  let w := lerpMorphTarget inp.morphKeys w "eyeBlinkLeft"
    (if inp.blink || inp.winkLeft then 1 else 0) 0.5
  lerpMorphTarget inp.morphKeys w "eyeBlinkRight"
    (if inp.blink || inp.winkRight then 1 else 0) 0.5

/-- The lip-sync timing computation of `useFrame` (Avatar.jsx 400-419):
`(currentAudioTime, shouldApplyLipSync)`.  In video mode with video audio the
video clock is used only while `isPlaying`; the chat branch requires
`!videoSyncMode`. -/
def lipSyncTiming (inp : FrameInput) : ℚ × Bool :=
  if inp.videoSyncMode && inp.currentVideoSessionId.isSome && inp.useVideoAudio then
    match inp.syncState with
    | some st =>
        if st.isPlaying then (st.currentTime.getD 0, true) else (-1, false)
    | none => (-1, false)
  else if inp.audio.isSome && !inp.videoSyncMode then
    match inp.audio with
    | some a => (a.currentTime, !a.paused && !a.ended)
    | none => (0, false)
  else (0, false)

/-- First mouth cue whose `[start, end]` interval contains the time. -/
def findCue (cues : List MouthCue) (t : ℚ) : Option MouthCue :=
  cues.find? (fun c => decide (c.start ≤ t) && decide (t ≤ c.cueEnd))

/-- The lip-sync pass of `useFrame` (Avatar.jsx 398-436): when a cue matches
the authoritative clock, interpolate its viseme toward 1 and report it as
applied. Returns the updated weights and the applied viseme, if any. -/
def applyLipSyncPass (inp : FrameInput) (w : String → ℚ) :
    (String → ℚ) × Option String :=
  if inp.hasMessage && inp.lipsync.isSome then
    let timing := lipSyncTiming inp
    if timing.2 && decide (0 ≤ timing.1) then
      match findCue ((inp.lipsync.getD ⟨[]⟩).mouthCues) timing.1 with
      | some cue =>
          match correspondingTable.lookup cue.value with
          | some vis => (lerpMorphTarget inp.morphKeys w vis 1 0.2, some vis)
          | none => (w, none)
      | none => (w, none)
    else (w, none)
  else (w, none)

/-- The reset pass of `useFrame` (Avatar.jsx 439-444): every viseme target
not applied this frame is interpolated toward neutral. -/
def resetStep (inp : FrameInput) (applied : Option String)
    (w : String → ℚ) (v : String) : String → ℚ :=
  if applied = some v then w else lerpMorphTarget inp.morphKeys w v 0 0.1

/-- The reset pass folds `resetStep` over `Object.values(corresponding)`. -/
def applyResetPass (inp : FrameInput) (w : String → ℚ)
    (applied : Option String) : String → ℚ :=
  visemeTargets.foldl (resetStep inp applied) w

/-- One whole `useFrame` callback (Avatar.jsx 376-445): expression pass,
blink pass, then (outside setup mode) lip-sync and viseme reset. -/
def avatarFrame (inp : FrameInput) (w : String → ℚ) : String → ℚ :=
  let w1 := if inp.setupMode then w else applyExpressionPass inp w
  let w2 := applyBlinkPass inp w1
  if inp.setupMode then w2
  else
    let p := applyLipSyncPass inp w2
    applyResetPass inp p.1 p.2

/-- The Video Mode Animation Control effect (Avatar.jsx 301-320): while the
session's video is playing the message's animation is applied; while it is
paused or stopped the avatar is forced to the idle pose. Returns the
animation state after the effect runs. -/
def videoModeAnimationControl (videoSyncMode : Bool)
    (currentVideoSessionId : Option String) (syncState : Option VideoSyncState)
    (hasMessage : Bool) (messageAnimation : Option String)
    (current : String) : String :=
  if !(videoSyncMode && currentVideoSessionId.isSome) then current
  else
    match syncState with
    | none => current
    | some st =>
        if st.isPlaying then
          (if hasMessage && strTruthy messageAnimation then messageAnimation.getD ""
           else current)
        else "Idle"

theorem lerp_zero_bounds (x t : ℚ) (hx : 0 ≤ x) (ht0 : 0 ≤ t) (ht1 : t ≤ 1) :
    0 ≤ lerp x 0 t ∧ lerp x 0 t ≤ x := by
  unfold lerp
  constructor <;> nlinarith

theorem lerpMorphTarget_ne (morphKeys : List String) (w : String → ℚ)
    (target : String) (value speed : ℚ) (v : String) (h : v ≠ target) :
    lerpMorphTarget morphKeys w target value speed v = w v := by
  unfold lerpMorphTarget setWeight
  split <;> simp [h]

theorem lerpMorphTarget_self_zero (morphKeys : List String) (w : String → ℚ)
    (v : String) (t : ℚ) (hx : 0 ≤ w v) (ht0 : 0 ≤ t) (ht1 : t ≤ 1) :
    0 ≤ lerpMorphTarget morphKeys w v 0 t v ∧
    lerpMorphTarget morphKeys w v 0 t v ≤ w v := by
  unfold lerpMorphTarget setWeight
  split
  · simpa using lerp_zero_bounds (w v) t hx ht0 ht1
  · exact ⟨hx, le_refl _⟩

theorem foldl_decay {α : Type} (step : (String → ℚ) → α → (String → ℚ))
    (v : String)
    (h : ∀ (w : String → ℚ) (k : α), 0 ≤ w v →
      0 ≤ step w k v ∧ step w k v ≤ w v) :
    ∀ (ks : List α) (w : String → ℚ), 0 ≤ w v →
      0 ≤ (ks.foldl step w) v ∧ (ks.foldl step w) v ≤ w v := by
  intro ks
  induction ks with
  | nil => intro w hw; exact ⟨hw, le_refl _⟩
  | cons k ks ih =>
      intro w hw
      have h1 := h w k hw
      have h2 := ih (step w k) h1.1
      exact ⟨h2.1, h2.2.trans h1.2⟩

theorem lookup_mem_values {α β : Type} [BEq α] :
    ∀ (l : List (α × β)) (a : α) (b : β),
      l.lookup a = some b → b ∈ l.map Prod.snd := by
  intro l
  induction l with
  | nil => intro a b h; cases h
  | cons p rest ih =>
      intro a b h
      rw [List.lookup] at h
      split at h
      · cases h; exact List.mem_cons_self _ _
      · exact List.mem_cons_of_mem _ (ih a b h)

/-- No facial expression of the table assigns a weight to any viseme morph
target: every expression mapping is viseme-free. -/
theorem viseme_not_in_expression_mappings :
    ∀ m ∈ facialExpressionsTable.map Prod.snd, ∀ v ∈ visemeTargets,
      m.lookup v = none := by decide

/-- Viseme targets are not the blink keys. -/
theorem viseme_not_blink :
    ∀ v ∈ visemeTargets, v ≠ "eyeBlinkLeft" ∧ v ≠ "eyeBlinkRight" := by decide


/-- The expression pass drives every viseme target toward 0: no expression of
the table assigns a viseme target a value. -/
theorem exprTargetValue_viseme (e v : String) (hv : v ∈ visemeTargets) :
    exprTargetValue e v = 0 := by
  unfold exprTargetValue
  cases hm : facialExpressionsTable.lookup e with
  | none => rfl
  | some mapping =>
      have hnone : mapping.lookup v = none :=
        viseme_not_in_expression_mappings mapping
          (lookup_mem_values _ _ _ hm) v hv
      simp [hnone]

theorem exprStep_decay (inp : FrameInput) (v : String) (hv : v ∈ visemeTargets)
    (w : String → ℚ) (key : String) (hw : 0 ≤ w v) :
    0 ≤ exprStep inp w key v ∧ exprStep inp w key v ≤ w v := by
  unfold exprStep
  by_cases hkv : key = v
  · subst hkv
    have hblk := viseme_not_blink key hv
    rw [if_neg (by simp [hblk.1, hblk.2]), exprTargetValue_viseme _ _ hv]
    exact lerpMorphTarget_self_zero inp.morphKeys w key 0.1 hw
      (by norm_num) (by norm_num)
  · have hne : v ≠ key := fun h => hkv h.symm
    split
    · exact ⟨hw, le_refl _⟩
    · rw [lerpMorphTarget_ne _ _ _ _ _ _ hne]
      exact ⟨hw, le_refl _⟩

theorem applyExpressionPass_decay (inp : FrameInput) (v : String)
    (hv : v ∈ visemeTargets) (w : String → ℚ) (hw : 0 ≤ w v) :
    0 ≤ applyExpressionPass inp w v ∧ applyExpressionPass inp w v ≤ w v := by
  unfold applyExpressionPass
  exact foldl_decay (exprStep inp) v
    (fun w k hw => exprStep_decay inp v hv w k hw) inp.eyeLeftKeys w hw

theorem resetStep_decay (inp : FrameInput) (applied : Option String)
    (v : String) (w : String → ℚ) (u : String) (hw : 0 ≤ w v) :
    0 ≤ resetStep inp applied w u v ∧ resetStep inp applied w u v ≤ w v := by
  unfold resetStep
  by_cases huv : u = v
  · subst huv
    split
    · exact ⟨hw, le_refl _⟩
    · exact lerpMorphTarget_self_zero inp.morphKeys w u 0.1 hw
        (by norm_num) (by norm_num)
  · have hne : v ≠ u := fun h => huv h.symm
    split
    · exact ⟨hw, le_refl _⟩
    · rw [lerpMorphTarget_ne _ _ _ _ _ _ hne]
      exact ⟨hw, le_refl _⟩

theorem applyResetPass_decay (inp : FrameInput) (applied : Option String)
    (v : String) (w : String → ℚ) (hw : 0 ≤ w v) :
    0 ≤ applyResetPass inp w applied v ∧ applyResetPass inp w applied v ≤ w v := by
  unfold applyResetPass
  exact foldl_decay (resetStep inp applied) v
    (fun w k hw => resetStep_decay inp applied v w k hw) visemeTargets w hw

theorem applyBlinkPass_viseme (inp : FrameInput) (w : String → ℚ) (v : String)
    (hv : v ∈ visemeTargets) : applyBlinkPass inp w v = w v := by
  have hblk := viseme_not_blink v hv
  unfold applyBlinkPass
  rw [lerpMorphTarget_ne _ _ _ _ _ _ hblk.2, lerpMorphTarget_ne _ _ _ _ _ _ hblk.1]

theorem lipSyncTiming_paused (inp : FrameInput) (st : VideoSyncState)
    (hmode : inp.videoSyncMode = true) (hst : inp.syncState = some st)
    (hpause : st.isPlaying = false) : (lipSyncTiming inp).2 = false := by
  unfold lipSyncTiming
  rw [hmode, hst]
  cases h1 : inp.currentVideoSessionId.isSome <;>
    cases h2 : inp.useVideoAudio <;> simp [hpause]

theorem applyLipSyncPass_paused (inp : FrameInput) (st : VideoSyncState)
    (w : String → ℚ)
    (hmode : inp.videoSyncMode = true) (hst : inp.syncState = some st)
    (hpause : st.isPlaying = false) : applyLipSyncPass inp w = (w, none) := by
  have h := lipSyncTiming_paused inp st hmode hst hpause
  unfold applyLipSyncPass
  simp [h]

/-- **C7.** While the session's `VideoSyncState.isPlaying` is `false`, a
rendered frame never increases any viseme morph target's weight (every viseme
weight decays toward neutral), and the Video Mode Animation Control effect
forces the body animation to the idle pose regardless of the message's
nominal animation tag. -/
theorem video_paused_gates_face_and_body (inp : FrameInput) (w : String → ℚ)
    (st : VideoSyncState) (sid : String)
    (hmode : inp.videoSyncMode = true)
    (hsid : inp.currentVideoSessionId = some sid)
    (hst : inp.syncState = some st)
    (hpause : st.isPlaying = false) :
    (∀ v ∈ visemeTargets, 0 ≤ w v → avatarFrame inp w v ≤ w v) ∧
    (∀ (hasMessage : Bool) (messageAnimation : Option String) (current : String),
      videoModeAnimationControl inp.videoSyncMode inp.currentVideoSessionId
        inp.syncState hasMessage messageAnimation current = "Idle") := by
  constructor
  · intro v hv hw
    unfold avatarFrame
    by_cases hsetup : inp.setupMode = true
    · simp only [hsetup, if_true]
      rw [applyBlinkPass_viseme inp w v hv]
    · have hs : inp.setupMode = false := by
        cases h : inp.setupMode
        · rfl
        · exact absurd h hsetup
      simp only [hs, Bool.false_eq_true, if_false]
      have h1 := applyExpressionPass_decay inp v hv w hw
      have h2 : applyBlinkPass inp (applyExpressionPass inp w) v =
          applyExpressionPass inp w v :=
        applyBlinkPass_viseme inp (applyExpressionPass inp w) v hv
      rw [applyLipSyncPass_paused inp st
        (applyBlinkPass inp (applyExpressionPass inp w)) hmode hst hpause]
      have h3 := applyResetPass_decay inp none v
        (applyBlinkPass inp (applyExpressionPass inp w)) (by rw [h2]; exact h1.1)
      calc applyResetPass inp (applyBlinkPass inp (applyExpressionPass inp w)) none v
          ≤ applyBlinkPass inp (applyExpressionPass inp w) v := h3.2
        _ = applyExpressionPass inp w v := h2
        _ ≤ w v := h1.2
  · intro hasMessage messageAnimation current
    unfold videoModeAnimationControl
    rw [hmode, hsid, hst]
    simp [hpause]

/-! ## Claim-side observers and string helpers -/

theorem string_ne_empty_of_length_pos (s : String) (h : 0 < s.length) : s ≠ "" := by
  intro he
  rw [he] at h
  exact absurd h (by decide)

/-- The message list of a `/chat` response, whichever shape it has. -/
def responseMessages : ChatResponse → List Msg
  | .okMessages msgs => msgs
  | .okFull msgs _ _ => msgs
  | .err _ _ => []

/-- The HTTP status of a `/chat` response (`res.send` is a 200). -/
def responseStatus : ChatResponse → Nat
  | .err s _ => s
  | _ => 200

/-- Whether a `/chat` response body carries the `sessionId` and
`videoGenerating` fields next to `messages`. -/
def responseHasSessionFields : ChatResponse → Bool
  | .okFull _ _ _ => true
  | _ => false

/-! ## C8: the truncated-output repair -/

theorem appendRepeat_data (c : Char) (s : String) (n : Nat) :
    (appendRepeat c s n).data = s.data ++ List.replicate n c := by
  induction n generalizing s with
  | zero => simp [appendRepeat]
  | succ n ih =>
      rw [appendRepeat, ih]
      simp [String.push, List.replicate_succ]

/-- Step 1 of the claim's description: one double quote when the count is odd. -/
def quoteRepair (s : String) : String :=
  if countChar '\"' s % 2 = 1 then "\"" else ""

/-- Step 2: one closing brace per unmatched opening brace. -/
def braceRepair (s : String) : String :=
  String.mk (List.replicate (countChar '\x7b' s - countChar '\x7d' s) '\x7d')

/-- Step 3: one closing bracket per unmatched opening bracket. -/
def bracketRepair (s : String) : String :=
  String.mk (List.replicate (countChar '[' s - countChar ']' s) ']')

theorem fixTruncatedContent_decomposition (s : String) :
    fixTruncatedContent s = ((s ++ quoteRepair s) ++ braceRepair s) ++ bracketRepair s := by
  apply String.ext
  unfold fixTruncatedContent quoteRepair braceRepair bracketRepair
  by_cases hq : countChar '\"' s % 2 = 1
  · have hq' : countChar '\"' s % 2 ≠ 0 := by omega
    simp only [if_pos hq, if_pos hq', appendRepeat_data, String.data_append,
      String.push]
  · have hq' : ¬ countChar '\"' s % 2 ≠ 0 := by omega
    simp only [if_neg hq, if_neg hq', appendRepeat_data, String.data_append]
    simp

/-- **C8.** When the provider signals truncation (`finish_reason === 'length'`)
the handler repairs the raw text exactly as the claim describes — append one
double quote if the double-quote count is odd, then one `\x7d` per unmatched
`\x7b`, then one `]` per unmatched `[` — parses only the repaired text, and
falls through to the fixed mode-specific substitute part list when that parse
still fails. -/
theorem truncation_repair (d : ChatDeps) (videoMode : Bool) (c : String)
    (hc : c ≠ "") :
    fixTruncatedContent c = ((c ++ quoteRepair c) ++ braceRepair c) ++ bracketRepair c ∧
    parseStage d videoMode true (some c) "length" =
      (match d.jsonParse (fixTruncatedContent c) with
        | some msgs => msgs
        | none => parseFallback videoMode) ∧
    (d.jsonParse (fixTruncatedContent c) = none →
      parseStage d videoMode true (some c) "length" = parseFallback videoMode) := by
  refine ⟨fixTruncatedContent_decomposition c, ?_, ?_⟩
  · simp [parseStage, hc]
  · intro hparse
    simp [parseStage, hc, hparse]

/-! ## Schema validity of parts (C6) and hydration facts (C3, C5) -/

/-- §8 schema validity of one part: non-empty display text, expression tag in
the validated expression set, animation tag in the validated animation set. -/
def partSchemaValid (m : Msg) : Bool :=
  strTruthy m.text &&
  decide ((m.facialExpression.getD "") ∈ validExpressions) &&
  decide ((m.animation.getD "") ∈ validAnimations)

/-- §8 schema validity of a whole returned part list. -/
def partListSchemaValid (l : List Msg) : Bool :=
  decide (1 ≤ l.length) && decide (l.length ≤ 5) && l.all partSchemaValid

theorem hydrateVideoCore_ok (d : ChatDeps) (sid : String) (i : Nat)
    (m m2 : Msg) (h : hydrateVideoCore d sid i m = .ok m2) :
    m2.narrationAudioFile = some (videoNarrationFileName sid) ∧
    m2.useVideoAudio = true ∧
    m2.sessionId = some sid ∧
    m2.audioUrl = some ("http://localhost:3001/audio/" ++
      basename (videoNarrationFileName sid)) ∧
    m2.lipsync.isSome = true ∧
    partSchemaValid m2 = true := by
  have htext : videoTextForChat i m ≠ "" := by
    unfold videoTextForChat
    by_cases hc : strTruthy m.chatResponse = true
    · rw [if_pos hc]
      cases hco : m.chatResponse with
      | none => rw [hco] at hc; exact absurd hc (by simp [strTruthy])
      | some s =>
          rw [hco] at hc
          simpa [strTruthy, hco] using hc
    · rw [if_neg hc]
      apply string_ne_empty_of_length_pos
      rw [String.length_append, String.length_append]
      have : (0:Nat) < ("Part " : String).length := by decide
      omega
  unfold hydrateVideoCore at h
  split at h
  · exact absurd h (by simp)
  · dsimp only at h
    split at h
    · rename_i hvalid
      split at h
      · exact absurd h (by simp)
      · injection h with h
        subst h
        refine ⟨rfl, rfl, rfl, rfl, rfl, ?_⟩
        simp only [partSchemaValid, Bool.and_eq_true, decide_eq_true_eq]
        exact ⟨⟨by simpa [strTruthy] using htext, hvalid.1⟩, hvalid.2⟩
    · exact absurd h (by simp)

theorem hydrateChatMsg_ok (d : ChatDeps) (i : Nat) (m m2 : Msg)
    (h : hydrateChatMsg d i m = .ok m2) :
    m2.text = m.text ∧ m2.audio.isSome = true ∧ m2.lipsync.isSome = true ∧
    partSchemaValid m2 = true := by
  unfold hydrateChatMsg at h
  split at h
  · exact absurd h (by simp)
  · rename_i hfields
    split at h
    · exact absurd h (by simp)
    · rename_i hvalid
      rw [Decidable.not_not] at hvalid
      split at h
      · exact absurd h (by simp)
      · split at h
        · exact absurd h (by simp)
        · split at h
          · exact absurd h (by simp)
          · split at h
            · rename_i a l ha hl
              injection h with h
              subst h
              refine ⟨rfl, rfl, rfl, ?_⟩
              have htext : strTruthy m.text = true := by
                by_cases ht : strTruthy m.text = true
                · exact ht
                · exact absurd (by simp [ht] : (!strTruthy m.text ||
                    !strTruthy m.facialExpression || !strTruthy m.animation) = true)
                    hfields
              simp only [partSchemaValid, Bool.and_eq_true, decide_eq_true_eq]
              exact ⟨⟨htext, hvalid.1⟩, hvalid.2⟩
            · exact absurd h (by simp)

theorem hydrateStep_ok (d : ChatDeps) (vm : Bool) (sid : String) (i : Nat)
    (m m2 : Msg)
    (h : (if vm then hydrateVideoMsg d sid i m else hydrateChatMsg d i m) = .ok m2) :
    partSchemaValid m2 = true := by
  cases vm with
  | false =>
      simp only [Bool.false_eq_true, if_false] at h
      exact (hydrateChatMsg_ok d i m m2 h).2.2.2
  | true =>
      simp only [if_true] at h
      exact (hydrateVideoCore_ok d sid i (defaultVideoFields i m) m2
        (by simpa [hydrateVideoMsg] using h)).2.2.2.2.2

theorem hydrateLoop_ok (d : ChatDeps) (vm : Bool) (sid : String) :
    ∀ (i : Nat) (msgs out : List Msg), hydrateLoop d vm sid i msgs = .ok out →
      out.length = msgs.length ∧ ∀ m2 ∈ out, partSchemaValid m2 = true := by
  intro i msgs
  induction msgs generalizing i with
  | nil =>
      intro out h
      unfold hydrateLoop at h
      injection h with h
      subst h
      simp
  | cons m rest ih =>
      intro out h
      unfold hydrateLoop at h
      split at h
      · exact absurd h (by simp)
      · rename_i m2 heq1
        split at h
        · exact absurd h (by simp)
        · rename_i rest2 heq2
          injection h with h
          subst h
          have h1 := hydrateStep_ok d vm sid i m m2 heq1
          have h2 := ih (i + 1) rest2 heq2
          refine ⟨by simpa using h2.1, ?_⟩
          intro x hx
          rcases List.mem_cons.mp hx with hx | hx
          · subst hx; exact h1
          · exact h2.2 x hx

theorem hydrateLoop_video_narration (d : ChatDeps) (sid : String) :
    ∀ (i : Nat) (msgs out : List Msg), hydrateLoop d true sid i msgs = .ok out →
      ∀ m2 ∈ out,
        m2.narrationAudioFile = some (videoNarrationFileName sid) ∧
        m2.useVideoAudio = true ∧ m2.sessionId = some sid ∧
        m2.audioUrl = some ("http://localhost:3001/audio/" ++
          basename (videoNarrationFileName sid)) ∧
        m2.lipsync.isSome = true := by
  intro i msgs
  induction msgs generalizing i with
  | nil =>
      intro out h
      unfold hydrateLoop at h
      injection h with h
      subst h
      simp
  | cons m rest ih =>
      intro out h
      unfold hydrateLoop at h
      split at h
      · exact absurd h (by simp)
      · rename_i m2 heq1
        split at h
        · exact absurd h (by simp)
        · rename_i rest2 heq2
          injection h with h
          subst h
          simp only [if_true] at heq1
          have h1 := hydrateVideoCore_ok d sid i (defaultVideoFields i m) m2
            (by simpa [hydrateVideoMsg] using heq1)
          intro x hx
          rcases List.mem_cons.mp hx with hx | hx
          · subst hx; exact ⟨h1.1, h1.2.1, h1.2.2.1, h1.2.2.2.1, h1.2.2.2.2.1⟩
          · exact ih (i + 1) rest2 heq2 x hx

theorem processParsedMessages_ok (d : ChatDeps) (vm : Bool) (sid : String)
    (msgs out : List Msg) (h : processParsedMessages d vm sid msgs = .ok out) :
    partListSchemaValid out = true ∧ out.length = msgs.length := by
  unfold processParsedMessages at h
  split at h
  · exact absurd h (by simp)
  · rename_i hlen
    rw [Decidable.not_not] at hlen
    have main : hydrateLoop d vm sid 0 msgs = .ok out ∨
        (vm = true ∧ hydrateLoop d true sid 0 msgs = .ok out) := by
      split at h
      · rename_i hvm
        split at h
        · exact absurd h (by simp)
        · exact Or.inr ⟨(Bool.and_eq_true _ _ |>.mp hvm).1, h⟩
      · exact Or.inl h
    have hloop : out.length = msgs.length ∧
        ∀ m2 ∈ out, partSchemaValid m2 = true := by
      rcases main with hm | ⟨hvm, hm⟩
      · exact hydrateLoop_ok d vm sid 0 msgs out hm
      · exact hydrateLoop_ok d true sid 0 msgs out hm
    refine ⟨?_, hloop.1⟩
    simp only [partListSchemaValid, Bool.and_eq_true, decide_eq_true_eq]
    refine ⟨⟨?_, ?_⟩, ?_⟩
    · rw [hloop.1]; omega
    · rw [hloop.1]; exact hlen.1
    · rw [List.all_eq_true]
      exact hloop.2

theorem videoNarrationFileName_ne_empty (sid : String) :
    videoNarrationFileName sid ≠ "" := by
  apply string_ne_empty_of_length_pos
  unfold videoNarrationFileName
  rw [String.length_append, String.length_append]
  have : (0:Nat) < ("audios/video_narration_" : String).length := by decide
  omega

/-- **C3 (amended).** For every video-mode Turn that hydrates successfully,
the handler makes exactly one narration-synthesis call — on the joined video
explanations of all Parts — and every Part (hence every Part's render job,
which is handed `message.narrationAudioFile`) carries the Turn's single
combined narration-audio path, not an individual per-Part one. -/
theorem video_mode_combined_narration (d : ChatDeps) (sid : String)
    (msgs out : List Msg)
    (h : processParsedMessages d true sid msgs = .ok out) :
    videoNarrationCalls true msgs sid =
      [(combinedVideoExplanation msgs, videoNarrationFileName sid)] ∧
    ∀ m2 ∈ out,
      m2.narrationAudioFile = some (videoNarrationFileName sid) ∧
      (if strTruthy m2.narrationAudioFile then m2.narrationAudioFile else none) =
        some (videoNarrationFileName sid) := by
  unfold processParsedMessages at h
  split at h
  · exact absurd h (by simp)
  · rename_i hlen
    rw [Decidable.not_not] at hlen
    have hpos : msgs.length > 0 := Nat.pos_of_ne_zero hlen.2
    split at h
    · split at h
      · exact absurd h (by simp)
      · constructor
        · unfold videoNarrationCalls
          simp [hpos]
        · intro m2 hm2
          have hfacts := hydrateLoop_video_narration d sid 0 msgs out h m2 hm2
          refine ⟨hfacts.1, ?_⟩
          rw [hfacts.1]
          have : strTruthy (some (videoNarrationFileName sid)) = true := by
            simpa [strTruthy] using videoNarrationFileName_ne_empty sid
          rw [if_pos this]
    · rename_i hvm
      exfalso
      exact hvm (by simp [hpos])

/-- A concrete lip-sync transcript used by concrete runs. -/
def lip0 : Lipsync := ⟨[⟨0, 1, "A"⟩]⟩

/-- First part of a concrete two-part video-mode provider response. -/
def vmsg1 : Msg :=
  { chatResponse := some "Part one", videoExplanation := some "First part.",
    facialExpression := some "smile", animation := some "Talking_0",
    manimCode := some "code1" }

/-- Second part of a concrete two-part video-mode provider response. -/
def vmsg2 : Msg :=
  { chatResponse := some "", videoExplanation := some "Second part.",
    facialExpression := some "default", animation := some "Talking_1",
    manimCode := some "code2" }

/-- Concrete oracles: all effects succeed, the provider answers a two-part
video response. -/
def depsC3 : ChatDeps :=
  { genSessionId := "gen"
    hasElevenKey := true
    nebiusKey := some "key"
    fileB64 := fun _ => some "b64"
    fileJson := fun _ => some lip0
    provider := .ok true (some "content3") "stop"
    jsonParse := fun s => if s = "content3" then some [vmsg1, vmsg2] else none
    ttsOk := fun _ => true
    lipSyncOk := fun _ => true
    narrationOk := true }

/-- A concrete video-mode request. -/
def reqC3 : ChatRequest :=
  { message := some "explain", videoMode := true, sessionId := some "s1" }

/-- **C3 (counterexample).** On a concrete two-part video Turn the handler
attaches the same narration-audio path to both Parts — the Turn's combined
narration file, synthesized once from the joined explanations — so a Part's
render job does not carry an individual per-Part narration-audio path. -/
theorem video_narration_not_per_part :
    (responseMessages (chatHandler depsC3 reqC3)).map
        (fun m => m.narrationAudioFile) =
      [some "audios/video_narration_s1.mp3",
       some "audios/video_narration_s1.mp3"] ∧
    videoNarrationCalls true [vmsg1, vmsg2] "s1" =
      [("First part. Second part.", "audios/video_narration_s1.mp3")] := by
  constructor <;> rfl

/-- Concrete oracles: the completion provider fails with a transport error and
speech synthesis for the fallback message also fails. -/
def depsC4 : ChatDeps :=
  { genSessionId := "gen"
    hasElevenKey := true
    nebiusKey := some "key"
    fileB64 := fun _ => some "b64"
    fileJson := fun _ => some lip0
    provider := .transportError
    jsonParse := fun _ => none
    ttsOk := fun _ => false
    lipSyncOk := fun _ => true
    narrationOk := true }

/-- A concrete chat-mode request. -/
def reqC4 : ChatRequest :=
  { message := some "hi", videoMode := false, sessionId := some "s2" }

/-- **C4 (counterexample).** When the transport-error fallback's own speech
synthesis fails, `processMessages` rethrows and the whole request fails with
a 500 — the handler does not return the message text without audio. -/
theorem transport_fallback_tts_failure_is_500 :
    chatHandler depsC4 reqC4 = .err 500 "Failed to process chat request" := by
  rfl

/-- **C4 (amended).** On a completion-provider transport error the handler
returns the fixed friendly fallback message passed through the audio
pipeline — the part carries whatever audio and lip-sync could be read back,
and a failure to read either back only leaves that field unattached — but if
synthesizing the fallback's speech itself fails, the request fails with a
500 rather than returning the text without audio. -/
theorem transport_error_fallback (d : ChatDeps) (req : ChatRequest)
    (hmsg : strTruthy req.message = true)
    (hkeys : keysMissing d = false)
    (hprov : d.provider = .transportError) :
    (d.ttsOk 0 = true →
      chatHandler d req = .okMessages
        [{ transportFallbackMsg with
            audio := d.fileB64 "audios/message_0.mp3",
            lipsync := d.fileJson "audios/message_0.json" }]) ∧
    (d.ttsOk 0 = false →
      chatHandler d req = .err 500 "Failed to process chat request") := by
  constructor
  · intro htts
    unfold chatHandler
    rw [if_neg (by simp [hmsg]), if_neg (by simp [hkeys]), hprov]
    unfold processMessages
    rw [if_neg (by simp [htts])]
    unfold processMessages
    cases hA : d.fileB64 ("audios/message_" ++ toString 0 ++ ".mp3") <;>
      cases hL : d.fileJson ("audios/message_" ++ toString 0 ++ ".json") <;>
        simp [hA, hL, transportFallbackMsg] <;>
          exact ⟨hA.symm, hL.symm⟩
  · intro htts
    unfold chatHandler
    rw [if_neg (by simp [hmsg]), if_neg (by simp [hkeys]), hprov]
    unfold processMessages
    rw [if_pos (by simp [htts])]

theorem parseStage_fallback (d : ChatDeps) (vm : Bool) (c finish : String)
    (hc : c ≠ "") (hparse : ∀ s, d.jsonParse s = none) :
    parseStage d vm true (some c) finish = parseFallback vm := by
  unfold parseStage
  by_cases hf : finish = "length" <;> simp [hc, hf, hparse]

theorem hydrateVideoMsg_parseFallback (d : ChatDeps) (sid : String)
    (lip : Lipsync)
    (hlip : d.fileJson (videoNarrationLipsyncName sid) = some lip) :
    hydrateVideoMsg d sid 0 parseFallbackVideo = .ok
      { parseFallbackVideo with
        chatResponse := some "Here\x27s your video explanation!",
        videoExplanation := some "Let me explain this concept step by step.",
        text := some "Here\x27s your video explanation!",
        audioUrl := some ("http://localhost:3001/audio/" ++
          basename (videoNarrationFileName sid)),
        lipsync := some lip,
        narrationAudioFile := some (videoNarrationFileName sid),
        useVideoAudio := true,
        sessionId := some sid } := by
  unfold hydrateVideoMsg defaultVideoFields hydrateVideoCore
  rw [hlip]
  rfl

theorem hydrateChatMsg_parseFallback (d : ChatDeps) (a : String) (l : Lipsync)
    (htts : d.ttsOk 0 = true) (hls : d.lipSyncOk 0 = true)
    (ha : d.fileB64 "audios/message_0.mp3" = some a)
    (hl : d.fileJson "audios/message_0.json" = some l) :
    hydrateChatMsg d 0 parseFallbackChat = .ok
      { parseFallbackChat with audio := some a, lipsync := some l } := by
  unfold hydrateChatMsg
  rw [show d.fileB64 ("audios/message_" ++ toString 0 ++ ".mp3") = some a from ha,
    show d.fileJson ("audios/message_" ++ toString 0 ++ ".json") = some l from hl]
  rw [if_neg (by decide), if_neg (by decide), if_neg (by decide),
    if_neg (by simp [htts]), if_neg (by simp [hls])]

/-- **C5.** When the provider's output cannot be parsed (even after any
repair), the handler substitutes the fixed single mode-specific fallback
part — in video mode one carrying the non-empty one-scene technical-difficulty
script — runs it through the audio pipeline so the returned part carries its
audio reference and lip-sync, and answers 200 rather than a 5xx for the parse
failure. -/
theorem parse_failure_fallback (d : ChatDeps) (req : ChatRequest)
    (c finish : String)
    (hmsg : strTruthy req.message = true)
    (hkeys : keysMissing d = false)
    (hprov : d.provider = .ok true (some c) finish)
    (hc : c ≠ "")
    (hparse : ∀ s, d.jsonParse s = none) :
    (jsTrim (parseFallbackVideo.manimCode.getD "") ≠ "") ∧
    (req.videoMode = true →
      ∀ lip, d.fileJson (videoNarrationLipsyncName (effectiveSessionId d req)) = some lip →
      d.narrationOk = true →
      chatHandler d req = .okFull
        [{ parseFallbackVideo with
            chatResponse := some "Here\x27s your video explanation!",
            videoExplanation := some "Let me explain this concept step by step.",
            text := some "Here\x27s your video explanation!",
            audioUrl := some ("http://localhost:3001/audio/" ++
              basename (videoNarrationFileName (effectiveSessionId d req))),
            lipsync := some lip,
            narrationAudioFile := some (videoNarrationFileName (effectiveSessionId d req)),
            useVideoAudio := true,
            sessionId := some (effectiveSessionId d req) }]
        (effectiveSessionId d req) true) ∧
    (req.videoMode = false →
      d.ttsOk 0 = true → d.lipSyncOk 0 = true →
      ∀ a l, d.fileB64 "audios/message_0.mp3" = some a →
        d.fileJson "audios/message_0.json" = some l →
      chatHandler d req = .okFull
        [{ parseFallbackChat with audio := some a, lipsync := some l }]
        (effectiveSessionId d req) false) := by
  refine ⟨by decide, ?_, ?_⟩
  · intro hvm lip hlip hnarr
    unfold chatHandler
    rw [if_neg (by simp [hmsg]), if_neg (by simp [hkeys]), hprov]
    dsimp only
    rw [hvm, parseStage_fallback d true c finish hc hparse]
    unfold processParsedMessages
    rw [if_neg (by decide), if_pos (by decide), if_neg (by simp [hnarr])]
    rw [show parseFallback true = [parseFallbackVideo] from rfl]
    unfold hydrateLoop
    rw [hydrateVideoMsg_parseFallback d (effectiveSessionId d req) lip hlip]
    rfl
  · intro hvm htts hls a l ha hl
    unfold chatHandler
    rw [if_neg (by simp [hmsg]), if_neg (by simp [hkeys]), hprov]
    dsimp only
    rw [hvm, parseStage_fallback d false c finish hc hparse]
    unfold processParsedMessages
    rw [if_neg (by decide), if_neg (by decide)]
    rw [show parseFallback false = [parseFallbackChat] from rfl]
    unfold hydrateLoop
    rw [hydrateChatMsg_parseFallback d a l htts hls ha hl]
    rfl


theorem processMessages_fields (d : ChatDeps) :
    ∀ (i : Nat) (msgs out : List Msg), processMessages d i msgs = .ok out →
      out.length = msgs.length ∧
      ∀ m2 ∈ out, ∃ m ∈ msgs, m2.text = m.text ∧
        m2.facialExpression = m.facialExpression ∧ m2.animation = m.animation := by
  intro i msgs
  induction msgs generalizing i with
  | nil =>
      intro out h
      unfold processMessages at h
      injection h with h
      subst h
      simp
  | cons m rest ih =>
      intro out h
      unfold processMessages at h
      split at h
      · exact absurd h (by simp)
      · dsimp only at h
        cases hrec : processMessages d (i + 1) rest with
        | error e =>
            rw [hrec] at h
            exact absurd h (by simp)
        | ok rest2 =>
            rw [hrec] at h
            injection h with h
            subst h
            have h2 := ih (i + 1) rest2 hrec
            refine ⟨by simpa using h2.1, ?_⟩
            intro x hx
            rcases List.mem_cons.mp hx with hx | hx
            · subst hx
              exact ⟨m, List.mem_cons_self _ _, rfl, rfl, rfl⟩
            · obtain ⟨mm, hmm, hf⟩ := h2.2 x hx
              exact ⟨mm, List.mem_cons_of_mem _ hmm, hf⟩

/-- Concrete oracles with the ElevenLabs key absent. -/
def depsC6 : ChatDeps :=
  { genSessionId := "g"
    hasElevenKey := false
    nebiusKey := some "k"
    fileB64 := fun _ => some "a"
    fileJson := fun _ => some lip0
    provider := .transportError
    jsonParse := fun _ => none
    ttsOk := fun _ => true
    lipSyncOk := fun _ => true
    narrationOk := true }

/-- **C6 (counterexample).** The missing-credentials fallback Turn violates
the schema-validity property: its two parts carry the animations `Angry` and
`Laughing`, which are outside the validated animation set. -/
theorem api_key_fallback_breaks_schema :
    partListSchemaValid (responseMessages (chatHandler depsC6 reqC4)) = false ∧
    (responseMessages (chatHandler depsC6 reqC4)).map (fun m => m.animation) =
      [some "Angry", some "Laughing"] ∧
    validAnimations.contains "Angry" = false ∧
    validAnimations.contains "Laughing" = false := by
  exact ⟨rfl, rfl, rfl, rfl⟩

/-- **C6 (amended).** Schema validity — length 1 to 5, non-empty display
text, expression and animation tags inside the validated sets — holds for the
empty-input intro Turn, the transport-failure fallback Turn, and every Turn
the main validated path (including the parse-failure fallbacks) answers; the
missing-credentials fallback however has valid length, texts and expressions
but animations `Angry` and `Laughing` outside the validated animation set. -/
theorem returned_turns_schema_valid (d : ChatDeps) (req : ChatRequest) :
    (∀ l, ¬ strTruthy req.message = true →
      chatHandler d req = .okMessages l → partListSchemaValid l = true) ∧
    (∀ l, strTruthy req.message = true → keysMissing d = false →
      d.provider = .transportError →
      chatHandler d req = .okMessages l → partListSchemaValid l = true) ∧
    (∀ l sid vg, chatHandler d req = .okFull l sid vg →
      partListSchemaValid l = true) ∧
    (∀ l, strTruthy req.message = true → keysMissing d = true →
      chatHandler d req = .okMessages l →
      l.map (fun m => m.animation) = [some "Angry", some "Laughing"] ∧
      l.map (fun m => strTruthy m.text) = [true, true] ∧
      l.map (fun m => decide ((m.facialExpression.getD "") ∈ validExpressions)) =
        [true, true] ∧
      partListSchemaValid l = false) := by
  refine ⟨?_, ?_, ?_, ?_⟩
  · intro l hno h
    unfold chatHandler at h
    rw [if_pos hno] at h
    unfold introResponse at h
    split at h
    · injection h with h
      subst h
      rfl
    · exact absurd h (by simp)
  · intro l hmsg hkeys hprov h
    unfold chatHandler at h
    rw [if_neg (by simp [hmsg]), if_neg (by simp [hkeys]), hprov] at h
    dsimp only at h
    split at h
    · rename_i msgs2 heq
      injection h with h
      subst h
      have hfields := processMessages_fields d 0 [transportFallbackMsg] _ heq
      simp only [partListSchemaValid, Bool.and_eq_true, decide_eq_true_eq,
        List.all_eq_true]
      have hlen : msgs2.length = 1 := by simpa using hfields.1
      refine ⟨⟨by omega, by omega⟩, ?_⟩
      intro m2 hm2
      obtain ⟨m, hm, ht, he, ha⟩ := hfields.2 m2 hm2
      have hm' : m = transportFallbackMsg := by simpa using hm
      subst hm'
      simp [partSchemaValid, ht, he, ha, transportFallbackMsg, strTruthy,
        validExpressions, validAnimations]
    · exact absurd h (by simp)
  · intro l sid vg h
    unfold chatHandler at h
    by_cases hm : strTruthy req.message = true
    · rw [if_neg (by simp [hm])] at h
      by_cases hk : keysMissing d = true
      · rw [if_pos hk] at h
        unfold apiKeyResponse at h
        split at h
        · exact absurd h (by simp)
        · exact absurd h (by simp)
      · rw [if_neg hk] at h
        cases hp : d.provider with
        | transportError =>
            rw [hp] at h
            dsimp only at h
            split at h
            · exact absurd h (by simp)
            · exact absurd h (by simp)
        | ok sOk content finish =>
            rw [hp] at h
            dsimp only at h
            split at h
            · rename_i out hout
              injection h with h1 h2 h3
              subst h1
              exact (processParsedMessages_ok d req.videoMode _ _ _ hout).1
            · exact absurd h (by simp)
    · rw [if_pos hm] at h
      unfold introResponse at h
      split at h
      · exact absurd h (by simp)
      · exact absurd h (by simp)
  · intro l hmsg hkeys h
    unfold chatHandler at h
    rw [if_neg (by simp [hmsg]), if_pos hkeys] at h
    unfold apiKeyResponse at h
    split at h
    · injection h with h
      subst h
      exact ⟨rfl, rfl, rfl, rfl⟩
    · exact absurd h (by simp)

/-- A concrete empty-input request. -/
def reqEmpty : ChatRequest :=
  { message := none, videoMode := false, sessionId := some "s" }

/-- **C9 (counterexample).** The empty-input intro response is a 200 carrying
two messages but no `sessionId` or `videoGenerating` field. -/
theorem empty_input_response_lacks_session_fields :
    responseHasSessionFields (chatHandler depsC3 reqEmpty) = false ∧
    responseStatus (chatHandler depsC3 reqEmpty) = 200 ∧
    (responseMessages (chatHandler depsC3 reqEmpty)).length = 2 := by
  exact ⟨rfl, rfl, rfl⟩

/-- **C9 (amended).** Only the main validated path answers the full shape
`{messages, sessionId, videoGenerating}` — and there `sessionId` is the
Turn's effective session identifier and `videoGenerating` the request's video
mode; the empty-input, missing-credentials and transport-failure responses
carry only `{messages}`. -/
theorem response_shape (d : ChatDeps) (req : ChatRequest) :
    (∀ l sid vg, chatHandler d req = .okFull l sid vg →
      sid = effectiveSessionId d req ∧ vg = req.videoMode) ∧
    (¬ strTruthy req.message = true →
      responseHasSessionFields (chatHandler d req) = false) ∧
    (strTruthy req.message = true → keysMissing d = true →
      responseHasSessionFields (chatHandler d req) = false) ∧
    (d.provider = .transportError →
      responseHasSessionFields (chatHandler d req) = false) ∧
    (∀ sOk content finish out,
      strTruthy req.message = true → keysMissing d = false →
      d.provider = .ok sOk content finish →
      processParsedMessages d req.videoMode (effectiveSessionId d req)
        (parseStage d req.videoMode sOk content finish) = .ok out →
      chatHandler d req = .okFull out (effectiveSessionId d req) req.videoMode) := by
  refine ⟨?_, ?_, ?_, ?_, ?_⟩
  · intro l sid vg h
    unfold chatHandler at h
    by_cases hm : strTruthy req.message = true
    · rw [if_neg (by simp [hm])] at h
      by_cases hk : keysMissing d = true
      · rw [if_pos hk] at h
        unfold apiKeyResponse at h
        split at h
        · exact absurd h (by simp)
        · exact absurd h (by simp)
      · rw [if_neg hk] at h
        cases hp : d.provider with
        | transportError =>
            rw [hp] at h
            dsimp only at h
            split at h
            · exact absurd h (by simp)
            · exact absurd h (by simp)
        | ok sOk content finish =>
            rw [hp] at h
            dsimp only at h
            split at h
            · injection h with h1 h2 h3
              exact ⟨h2.symm, h3.symm⟩
            · exact absurd h (by simp)
    · rw [if_pos hm] at h
      unfold introResponse at h
      split at h
      · exact absurd h (by simp)
      · exact absurd h (by simp)
  · intro hno
    unfold chatHandler
    rw [if_pos hno]
    unfold introResponse
    split <;> rfl
  · intro hmsg hkeys
    unfold chatHandler
    rw [if_neg (by simp [hmsg]), if_pos hkeys]
    unfold apiKeyResponse
    split <;> rfl
  · intro hprov
    unfold chatHandler
    by_cases hm : strTruthy req.message = true
    · rw [if_neg (by simp [hm])]
      by_cases hk : keysMissing d = true
      · rw [if_pos hk]
        unfold apiKeyResponse
        split <;> rfl
      · rw [if_neg hk, hprov]
        dsimp only
        split <;> rfl
    · rw [if_pos hm]
      unfold introResponse
      split <;> rfl
  · intro sOk content finish out hmsg hkeys hprov hout
    unfold chatHandler
    rw [if_neg (by simp [hmsg]), if_neg (by simp [hkeys]), hprov]
    dsimp only
    rw [hout]

/-! ## C10: request-schema enums vs validation sets -/

/-- The `facialExpression` enum of the video-mode request schema
(`video_avatar_response_schema`, `index.js` 343-347). -/
def videoSchemaExpressions : List String :=
  ["smile", "sad", "angry", "surprised", "funnyFace", "default"]

/-- The `animation` enum of the video-mode request schema
(`index.js` 348-352). -/
def videoSchemaAnimations : List String :=
  ["Talking_0", "Talking_1", "Talking_2", "Crying", "Laughing", "Rumba",
   "Idle", "Terrified", "Angry"]

/-- Conformance of a parsed message array to the video-mode request schema:
1-5 items, every required field present, enums respected. -/
def videoSchemaConforms (msgs : List Msg) : Bool :=
  decide (1 ≤ msgs.length) && decide (msgs.length ≤ 5) &&
  msgs.all (fun m =>
    m.chatResponse.isSome && m.videoExplanation.isSome &&
    (match m.facialExpression with
      | some e => videoSchemaExpressions.contains e
      | none => false) &&
    (match m.animation with
      | some a => videoSchemaAnimations.contains a
      | none => false) &&
    m.manimCode.isSome)

/-- A provider response that the request schema permits but the handler's
validation rejects. -/
def funnyMsg : Msg :=
  { chatResponse := some "Fun explanation!",
    videoExplanation := some "A funny-face explanation.",
    facialExpression := some "funnyFace", animation := some "Talking_0",
    manimCode := some "from manim import *" }

/-- Concrete oracles whose provider answers the schema-conformant
`funnyFace` part. -/
def depsC10 : ChatDeps :=
  { genSessionId := "g"
    hasElevenKey := true
    nebiusKey := some "k"
    fileB64 := fun _ => some "a"
    fileJson := fun _ => some lip0
    provider := .ok true (some "content10") "stop"
    jsonParse := fun s => if s = "content10" then some [funnyMsg] else none
    ttsOk := fun _ => true
    lipSyncOk := fun _ => true
    narrationOk := true }

/-- A concrete video-mode request for the schema-vs-validation run. -/
def reqC10 : ChatRequest :=
  { message := some "explain", videoMode := true, sessionId := some "s10" }

/-- **C10.** There is a video-mode provider response that conforms to the
request schema the handler itself sends (a part with facial expression
`funnyFace`) which the handler's whole-Turn validation nevertheless rejects,
failing the request with HTTP 500; and the validated tag sets are strict
subsets of the schema enums. -/
theorem schema_conformant_response_rejected :
    videoSchemaConforms [funnyMsg] = true ∧
    chatHandler depsC10 reqC10 = .err 500 "Failed to process chat request" ∧
    validExpressions.all (fun e => videoSchemaExpressions.contains e) = true ∧
    (videoSchemaExpressions.contains "funnyFace" = true ∧
     validExpressions.contains "funnyFace" = false) ∧
    validAnimations.all (fun a => videoSchemaAnimations.contains a) = true ∧
    (videoSchemaAnimations.contains "Crying" = true ∧
     validAnimations.contains "Crying" = false) := by
  exact ⟨rfl, rfl, rfl, ⟨rfl, rfl⟩, rfl, ⟨rfl, rfl⟩⟩

/-! ## Concrete witnesses -/

/-- A concrete render oracle: part 1 fails, parts 0 and 2 succeed. -/
def renderW : Option String → Option String → Nat → Option VideoResult :=
  fun _ _ i => if i = 1 then none else some ⟨true, "p" ++ toString i, "u" ++ toString i⟩

/-- A concrete combine oracle that always succeeds. -/
def combineW : List String → Option VideoResult :=
  fun _ => some ⟨true, "final", "finalUrl"⟩

theorem background_render_correct_witness :
    backgroundRender renderW combineW [vmsg1, vmsg2, vmsg1] "s" 7 [] =
      storeSet [] "s" ⟨"finalUrl", "final", 7⟩ :=
  (background_render_correct renderW combineW [vmsg1, vmsg2, vmsg1] "s" 7 []).2.2.1
    ⟨true, "final", "finalUrl"⟩ (by decide) rfl rfl

theorem video_mode_combined_narration_witness :
    videoNarrationCalls true [vmsg1, vmsg2] "s1" =
      [("First part. Second part.", "audios/video_narration_s1.mp3")] :=
  (video_mode_combined_narration depsC3 "s1" [vmsg1, vmsg2] _ rfl).1

/-- Like `depsC4`, but with speech synthesis succeeding. -/
def depsC4ok : ChatDeps :=
  { depsC4 with ttsOk := fun _ => true }

theorem transport_error_fallback_witness :
    chatHandler depsC4ok reqC4 = .okMessages
      [{ transportFallbackMsg with audio := some "b64", lipsync := some lip0 }] :=
  (transport_error_fallback depsC4ok reqC4 rfl rfl rfl).1 rfl

/-- Concrete oracles whose provider answers unparseable content. -/
def depsC5 : ChatDeps :=
  { genSessionId := "g"
    hasElevenKey := true
    nebiusKey := some "k"
    fileB64 := fun _ => some "b64"
    fileJson := fun _ => some lip0
    provider := .ok true (some "oops") "stop"
    jsonParse := fun _ => none
    ttsOk := fun _ => true
    lipSyncOk := fun _ => true
    narrationOk := true }

theorem parse_failure_fallback_witness :
    chatHandler depsC5 reqC3 = .okFull
      [{ parseFallbackVideo with
          chatResponse := some "Here\x27s your video explanation!",
          videoExplanation := some "Let me explain this concept step by step.",
          text := some "Here\x27s your video explanation!",
          audioUrl := some "http://localhost:3001/audio/video_narration_s1.mp3",
          lipsync := some lip0,
          narrationAudioFile := some "audios/video_narration_s1.mp3",
          useVideoAudio := true,
          sessionId := some "s1" }] "s1" true :=
  (parse_failure_fallback depsC5 reqC3 "oops" "stop" rfl rfl rfl (by decide)
    (fun _ => rfl)).2.1 rfl lip0 rfl rfl

theorem returned_turns_schema_valid_witness :
    partListSchemaValid (responseMessages (chatHandler depsC3 reqEmpty)) = true :=
  (returned_turns_schema_valid depsC3 reqEmpty).1
    (responseMessages (chatHandler depsC3 reqEmpty)) (by decide) rfl

/-- A concrete paused video-sync state. -/
def stW : VideoSyncState := { isPlaying := false, currentTime := some 2, lastUpdateTime := none }

/-- A concrete frame input: video mode, paused session. -/
def inpW : FrameInput :=
  { setupMode := false
    eyeLeftKeys := ["browInnerUp", "viseme_AA", "eyeBlinkLeft"]
    morphKeys := ["browInnerUp", "viseme_AA", "viseme_PP", "eyeBlinkLeft", "eyeBlinkRight"]
    facialExpression := "smile"
    blink := false
    winkLeft := false
    winkRight := false
    hasMessage := true
    useVideoAudio := true
    lipsync := some lip0
    videoSyncMode := true
    currentVideoSessionId := some "sess"
    syncState := some stW
    audio := none }

theorem video_paused_gates_face_and_body_witness :
    avatarFrame inpW (fun _ => (1:ℚ)/2) "viseme_AA" ≤ (1:ℚ)/2 ∧
    videoModeAnimationControl inpW.videoSyncMode inpW.currentVideoSessionId
      inpW.syncState true (some "Rumba") "Talking_1" = "Idle" := by
  have h := video_paused_gates_face_and_body inpW (fun _ => (1:ℚ)/2) stW "sess"
    rfl rfl rfl rfl
  exact ⟨h.1 "viseme_AA" (by decide) (by norm_num), h.2 true (some "Rumba") "Talking_1"⟩

theorem truncation_repair_witness :
    parseStage depsC5 false true (some "[\x7b\"a\": \"b") "length" =
      parseFallback false :=
  (truncation_repair depsC5 false "[\x7b\"a\": \"b" (by decide)).2.2 rfl

theorem response_shape_witness :
    responseHasSessionFields (chatHandler depsC3 reqEmpty) = false :=
  (response_shape depsC3 reqEmpty).2.1 (by decide)
